import Mathlib

/-!
Shallow embedding of batch_entmax_gaussian_kernels.py over exact rationals.

Each batched tensor operation in the source is elementwise over the batch
dimension, so a single batch element is modelled; floating point arithmetic
is modelled by exact rational arithmetic, and the floating point power
operator is modelled by an abstract function argument fpow.  Python
exceptions (AttributeError on a missing escort, NotImplementedError) are
modelled by Option results.  The external EntmaxGaussian1D-style
distribution objects are collaborators outside the repository file, so they
are modelled abstractly as a record of the values the kernel code reads
back from them, produced by an abstract environment.
-/

namespace EntmaxKernels

/-- Kernel alpha values are Python floats that are either finite or math.inf. -/
inductive AlphaVal where
  | fin (q : ℚ)
  | inf
  deriving DecidableEq

/-- Family tag of a kernel object: the Python class, with the generic class
carrying its alpha. -/
inductive Fam where
  | baseF (alpha : AlphaVal)
  | uniformF
  | gaussianF
  | sparsemaxF
  | biweightF
  | triweightF
  deriving DecidableEq

/-- State of an external EntmaxGaussian1D-style distribution object after its
own set_parameters call: the values the kernel code reads from it. -/
structure DistObj where
  sigma_sq : ℚ
  tau : ℚ
  support_size : ℚ
  variance : ℚ
  pdf : ℚ → ℚ

/-- External basis object psi: pointwise evaluation and the analytic
definite-integral primitives, modelled per batch element and per output. -/
structure Psi where
  evaluate : ℚ → ℚ
  integrate_psi : ℚ → ℚ → ℚ
  integrate_t_times_psi : ℚ → ℚ → ℚ
  integrate_t2_times_psi : ℚ → ℚ → ℚ
  integrate_t3_times_psi : ℚ → ℚ → ℚ
  integrate_t4_times_psi : ℚ → ℚ → ℚ
  integrate_t5_times_psi : ℚ → ℚ → ℚ
  integrate_t6_times_psi : ℚ → ℚ → ℚ
  integrate_psi_gaussian : ℚ → ℚ → ℚ
  integrate_t_times_psi_gaussian : ℚ → ℚ → ℚ
  integrate_t2_times_psi_gaussian : ℚ → ℚ → ℚ

/-- The function _batch_linspace, one batch element: torch.linspace(0,1,steps)
is i/(steps-1) for i in range(steps), then (1-t)*start + t*end. -/
def batchLinspace (start e : ℚ) (steps : ℕ) : List ℚ :=
  (List.range steps).map fun (i : ℕ) =>
    (1 - (i : ℚ) / ((steps : ℚ) - 1)) * start + ((i : ℚ) / ((steps : ℚ) - 1)) * e

/-- The function torch.trapz over paired abscissas and ordinates:
sum of (x_next - x) * (y + y_next) / 2 over consecutive pairs. -/
def trapz : List (ℚ × ℚ) → ℚ
  | p :: q :: rest => (q.1 - p.1) * (p.2 + q.2) / 2 + trapz (q :: rest)
  | _ => 0

/-- Trapezoidal integration of a function sampled on a grid. -/
def trapzF (f : ℚ → ℚ) (ts : List ℚ) : ℚ :=
  trapz (ts.map fun t => (t, f t))

/-- Number of samples for numeric integrals, the constant _num_samples. -/
def numSamples : ℕ := 1000

mutual
/-- A kernel object after set_parameters: one constructor per Python class,
holding the fields that class stores.  The Uniform class stores no
distribution object and no sigma_sq (both are None); the Gaussian class
stores no half width a. -/
inductive Kernel where
  | base (alpha : AlphaVal) (d : DistObj) (mu sigma_sq a : ℚ) (es : Slot)
  | uniform (mu a density_value : ℚ) (es : Slot)
  | gaussian (d : DistObj) (mu sigma_sq : ℚ) (es : Slot)
  | sparsemax (d : DistObj) (mu sigma_sq a : ℚ) (es : Slot)
  | biweight (d : DistObj) (mu sigma_sq a : ℚ) (es : Slot)
  | triweight (d : DistObj) (mu sigma_sq a : ℚ) (es : Slot)

/-- The _escort field: None, a reference to the kernel object itself, or an
owned child kernel object. -/
inductive Slot where
  | noEscort
  | selfRef
  | child (k : Kernel)
end

/-- Field accessor for the escort slot. -/
def slotOf : Kernel → Slot
  | .base _ _ _ _ _ es => es
  | .uniform _ _ _ es => es
  | .gaussian _ _ _ es => es
  | .sparsemax _ _ _ _ es => es
  | .biweight _ _ _ _ es => es
  | .triweight _ _ _ _ es => es

/-- Field accessor for _alpha: the generic class stores the supplied alpha
and each family class fixes its own. -/
def alphaOf : Kernel → AlphaVal
  | .base a _ _ _ _ _ => a
  | .uniform _ _ _ _ => .inf
  | .gaussian _ _ _ _ => .fin 1
  | .sparsemax _ _ _ _ _ => .fin 2
  | .biweight _ _ _ _ _ => .fin (3 / 2)
  | .triweight _ _ _ _ _ => .fin (4 / 3)

/-- Family tag of a kernel object. -/
def famTag : Kernel → Fam
  | .base a _ _ _ _ _ => .baseF a
  | .uniform _ _ _ _ => .uniformF
  | .gaussian _ _ _ _ => .gaussianF
  | .sparsemax _ _ _ _ _ => .sparsemaxF
  | .biweight _ _ _ _ _ => .biweightF
  | .triweight _ _ _ _ _ => .triweightF

/-- Field accessor for _mu. -/
def muOf : Kernel → ℚ
  | .base _ _ mu _ _ _ => mu
  | .uniform mu _ _ _ => mu
  | .gaussian _ mu _ _ => mu
  | .sparsemax _ mu _ _ _ => mu
  | .biweight _ mu _ _ _ => mu
  | .triweight _ mu _ _ _ => mu

/-- Field accessor for the half width _a; the Gaussian class has no such
field and is given the arbitrary value 0 here (no code path reads it). -/
def halfWidth : Kernel → ℚ
  | .base _ _ _ _ a _ => a
  | .uniform _ a _ _ => a
  | .gaussian _ _ _ _ => 0
  | .sparsemax _ _ _ a _ => a
  | .biweight _ _ _ a _ => a
  | .triweight _ _ _ a _ => a

/-- The method variance, which delegates to the distribution object; the
Uniform class has _entmax = None, so the call raises (None result). -/
def varianceM : Kernel → Option ℚ
  | .base _ d _ _ _ _ => some d.variance
  | .uniform _ _ _ _ => none
  | .gaussian d _ _ _ => some d.variance
  | .sparsemax d _ _ _ _ => some d.variance
  | .biweight d _ _ _ _ => some d.variance
  | .triweight d _ _ _ _ => some d.variance

/-- Dereference the _escort field of a kernel: None, the kernel itself, or
the owned child. -/
def resolveEscort (k : Kernel) : Option Kernel :=
  match slotOf k with
  | .noEscort => none
  | .selfRef => some k
  | .child e => some e

mutual
/-- Length of the chain of owned child escorts hanging off a kernel.  A self
reference constructs no new object, so it contributes no depth. -/
def kernelDepth : Kernel → ℕ
  | .base _ _ _ _ _ es => slotDepth es
  | .uniform _ _ _ es => slotDepth es
  | .gaussian _ _ _ es => slotDepth es
  | .sparsemax _ _ _ _ es => slotDepth es
  | .biweight _ _ _ _ es => slotDepth es
  | .triweight _ _ _ _ es => slotDepth es

/-- Depth contributed by an escort slot. -/
def slotDepth : Slot → ℕ
  | .noEscort => 0
  | .selfRef => 0
  | .child k => 1 + kernelDepth k
end

/-- The escort alpha computed by the generic _escort_kernel:
1 / (2 - alpha) if alpha != 2 else math.inf.  For alpha = math.inf the
Python float arithmetic yields 1 / (2 - inf) = -0.0, modelled as 0. -/
def escortAlpha : AlphaVal → AlphaVal
  | .fin q => if q = 2 then .inf else .fin (1 / (2 - q))
  | .inf => .fin 0

/-- Python division, which raises ZeroDivisionError on a zero divisor. -/
def qdivChecked (a b : ℚ) : Option ℚ :=
  if b = 0 then none else some (a / b)

/-- The escort alpha computation with the division modelled as the raising
Python division, to express that the division-by-zero branch is never hit.
For an infinite alpha the divisor 2 - inf is the infinite float, not zero,
and float division by it is well defined (-0.0, modelled as 0). -/
def escortAlphaChecked : AlphaVal → Option AlphaVal
  | .fin q => if q = 2 then some .inf else (qdivChecked 1 (2 - q)).map .fin
  | .inf => some (.fin 0)

/-- Numeric value of an alpha for the arithmetic inside _escort_normalizer;
the infinite case is given an arbitrary value (claims are stated for finite
alpha only, where the model is exact). -/
def alphaToQ : AlphaVal → ℚ
  | .fin q => q
  | .inf => 0

/-- The float expression 1 / (alpha_escort - 1) appearing in
_escort_normalizer, with Python division raising on a zero divisor: for a
finite escort alpha of 1 the call raises ZeroDivisionError (None); for
alpha_escort = math.inf the divisor is the infinite float and the float
result is 0. -/
def invAlphaMinusOneChecked : AlphaVal → Option ℚ
  | .fin q => qdivChecked 1 (q - 1)
  | .inf => some 0

/-- Abstract environment producing the state of an external distribution
object from the constructor family and the set_parameters arguments. -/
def DistEnv : Type :=
  Fam → ℚ → Option ℚ → Option ℚ → DistObj

/-- Uniform1DKernel.set_parameters: stores mu, a = support_size / 2 and the
density value 1 / (2 a); the _sigma_sq and _escort fields are not written,
so the escort slot es of the object is whatever it already was. -/
def uniformSetParameters (es : Slot) (mu support_size : ℚ) : Kernel :=
  Kernel.uniform mu (support_size / 2) (1 / (2 * (support_size / 2))) es

/-- A freshly constructed Uniform1DKernel(mu, support_size): __init__ sets
_escort to None and then calls set_parameters. -/
def uniformFresh (mu support_size : ℚ) : Kernel :=
  uniformSetParameters Slot.noEscort mu support_size

/-- A generic EntmaxGaussian1DKernel built with use_escort = False: reads
sigma_sq and the support size back from its own distribution object and
leaves the escort slot empty. -/
def baseFresh (env : DistEnv) (alpha : AlphaVal) (mu : ℚ)
    (sigma_sq support_size : Option ℚ) : Kernel :=
  Kernel.base alpha (env (Fam.baseF alpha) mu sigma_sq support_size) mu
    (env (Fam.baseF alpha) mu sigma_sq support_size).sigma_sq
    ((env (Fam.baseF alpha) mu sigma_sq support_size).support_size / 2)
    Slot.noEscort

/-- EntmaxGaussian1DKernel._escort_kernel: a generic kernel of the escort
alpha with the same mu and support, built with use_escort = False. -/
def baseEscortKernel (env : DistEnv) (alpha : AlphaVal) (mu support_size : ℚ) :
    Kernel :=
  baseFresh env (escortAlpha alpha) mu none (some support_size)

/-- EntmaxGaussian1DKernel.set_parameters for the generic class. -/
def baseSetParameters (env : DistEnv) (alpha : AlphaVal) (mu : ℚ)
    (sigma_sq support_size : Option ℚ) (use_escort : Bool) : Kernel :=
  Kernel.base alpha (env (Fam.baseF alpha) mu sigma_sq support_size) mu
    (env (Fam.baseF alpha) mu sigma_sq support_size).sigma_sq
    ((env (Fam.baseF alpha) mu sigma_sq support_size).support_size / 2)
    (if use_escort then
      Slot.child (baseEscortKernel env alpha mu
        (env (Fam.baseF alpha) mu sigma_sq support_size).support_size)
    else Slot.noEscort)

/-- Gaussian1DKernel.set_parameters: stores mu and sigma_sq from the
distribution object and points the escort field at the object itself. -/
def gaussianSetParameters (env : DistEnv) (mu : ℚ) (sigma_sq : Option ℚ) :
    Kernel :=
  Kernel.gaussian (env Fam.gaussianF mu sigma_sq none) mu
    (env Fam.gaussianF mu sigma_sq none).sigma_sq Slot.selfRef

/-- SparsemaxGaussian1DKernel.set_parameters (inherited generic body with the
sparsemax override of _escort_kernel, which builds a fresh Uniform1DKernel
with the same mu and support 2 a). -/
def sparsemaxSetParameters (env : DistEnv) (mu : ℚ)
    (sigma_sq support_size : Option ℚ) (use_escort : Bool) : Kernel :=
  Kernel.sparsemax (env Fam.sparsemaxF mu sigma_sq support_size) mu
    (env Fam.sparsemaxF mu sigma_sq support_size).sigma_sq
    ((env Fam.sparsemaxF mu sigma_sq support_size).support_size / 2)
    (if use_escort then
      Slot.child (uniformFresh mu
        (2 * ((env Fam.sparsemaxF mu sigma_sq support_size).support_size / 2)))
    else Slot.noEscort)

/-- BiweightGaussian1DKernel.set_parameters (inherited generic body; the
escort override builds a sparsemax kernel with the same support and
use_escort = False). -/
def biweightSetParameters (env : DistEnv) (mu : ℚ)
    (sigma_sq support_size : Option ℚ) (use_escort : Bool) : Kernel :=
  Kernel.biweight (env Fam.biweightF mu sigma_sq support_size) mu
    (env Fam.biweightF mu sigma_sq support_size).sigma_sq
    ((env Fam.biweightF mu sigma_sq support_size).support_size / 2)
    (if use_escort then
      Slot.child (sparsemaxSetParameters env mu none
        (some (env Fam.biweightF mu sigma_sq support_size).support_size) false)
    else Slot.noEscort)

/-- TriweightGaussian1DKernel.set_parameters (inherited generic body; the
escort override builds a biweight kernel with the same support and
use_escort = False). -/
def triweightSetParameters (env : DistEnv) (mu : ℚ)
    (sigma_sq support_size : Option ℚ) (use_escort : Bool) : Kernel :=
  Kernel.triweight (env Fam.triweightF mu sigma_sq support_size) mu
    (env Fam.triweightF mu sigma_sq support_size).sigma_sq
    ((env Fam.triweightF mu sigma_sq support_size).support_size / 2)
    (if use_escort then
      Slot.child (biweightSetParameters env mu none
        (some (env Fam.triweightF mu sigma_sq support_size).support_size) false)
    else Slot.noEscort)

/-- Arguments of a set_parameters call through the common interface. -/
structure SPArgs where
  mu : ℚ
  sigma_sq : Option ℚ
  support_size : Option ℚ
  use_escort : Bool

/-- Dispatch of kernel.set_parameters on the dynamic class of the kernel.
The Uniform override takes only mu and support_size and fails on a missing
support size (None / 2 raises); the Gaussian override takes only mu and
sigma_sq. -/
def setParameters (env : DistEnv) (k : Kernel) (args : SPArgs) : Option Kernel :=
  match k with
  | .base alpha _ _ _ _ _ =>
      some (baseSetParameters env alpha args.mu args.sigma_sq args.support_size
        args.use_escort)
  | .uniform _ _ _ es =>
      args.support_size.map fun s => uniformSetParameters es args.mu s
  | .gaussian _ _ _ _ => some (gaussianSetParameters env args.mu args.sigma_sq)
  | .sparsemax _ _ _ _ _ =>
      some (sparsemaxSetParameters env args.mu args.sigma_sq args.support_size
        args.use_escort)
  | .biweight _ _ _ _ _ =>
      some (biweightSetParameters env args.mu args.sigma_sq args.support_size
        args.use_escort)
  | .triweight _ _ _ _ _ =>
      some (triweightSetParameters env args.mu args.sigma_sq args.support_size
        args.use_escort)

/-- The method expectation_t: every class returns _mu. -/
def expectation_t (k : Kernel) : ℚ :=
  muOf k

/-- The method expectation_t2: the Uniform override returns
(1/3) a^2 + mu^2; every other class returns variance() + mu^2 read from its
distribution object. -/
def expectation_t2 : Kernel → ℚ
  | .base _ d mu _ _ _ => d.variance + mu ^ 2
  | .uniform mu a _ _ => 1 / 3 * a ^ 2 + mu ^ 2
  | .gaussian d mu _ _ => d.variance + mu ^ 2
  | .sparsemax d mu _ _ _ => d.variance + mu ^ 2
  | .biweight d mu _ _ _ => d.variance + mu ^ 2
  | .triweight d mu _ _ _ => d.variance + mu ^ 2

/-- The method expectation_psi of every class, per batch element and per
psi output.  The generic class integrates pdf(t) * psi(t) numerically on
the 1000-point grid over [mu - a, mu + a]; each family class applies its
closed-form coefficients to the integral primitives of psi. -/
def expectation_psi : Kernel → Psi → ℚ
  | .base _ d mu _ a _, psi =>
      trapzF (fun t => d.pdf t * psi.evaluate t)
        (batchLinspace (mu - a) (mu + a) numSamples)
  | .uniform mu a dv _, psi => dv * psi.integrate_psi (mu - a) (mu + a)
  | .gaussian _ mu sq _, psi => psi.integrate_psi_gaussian mu sq
  | .sparsemax d mu sq a _, psi =>
      (-d.tau - mu ^ 2 / (2 * sq)) * psi.integrate_psi (mu - a) (mu + a)
      + mu / sq * psi.integrate_t_times_psi (mu - a) (mu + a)
      + -1 / (2 * sq) * psi.integrate_t2_times_psi (mu - a) (mu + a)
  | .biweight d mu sq a _, psi =>
      ((3 / 2 - 1) ^ 2 * (d.tau * (d.tau + mu ^ 2 / sq) + mu ^ 4 / (4 * sq ^ 2)))
        * psi.integrate_psi (mu - a) (mu + a)
      + (-((3 / 2 - 1) ^ 2) * (d.tau * 2 * mu / sq + mu ^ 3 / sq ^ 2))
        * psi.integrate_t_times_psi (mu - a) (mu + a)
      + ((3 / 2 - 1) ^ 2 * (d.tau / sq + 3 * mu ^ 2 / (2 * sq ^ 2)))
        * psi.integrate_t2_times_psi (mu - a) (mu + a)
      + (-((3 / 2 - 1) ^ 2) * mu / sq ^ 2)
        * psi.integrate_t3_times_psi (mu - a) (mu + a)
      + (3 / 2 - 1) ^ 2 / (4 * sq ^ 2)
        * psi.integrate_t4_times_psi (mu - a) (mu + a)
  | .triweight d mu sq a _, psi =>
      (-((4 / 3 - 1) ^ 3) * (d.tau ^ 3 + 3 / 2 * d.tau ^ 2 * mu ^ 2 / sq
          + 3 / 4 * d.tau * mu ^ 4 / sq ^ 2 + 1 / 8 * mu ^ 6 / sq ^ 3))
        * psi.integrate_psi (mu - a) (mu + a)
      + (-(-((4 / 3 - 1) ^ 3)) * (3 * d.tau ^ 2 * mu / sq
          + 3 * d.tau * mu ^ 3 / sq ^ 2 + 3 / 4 * mu ^ 5 / sq ^ 3))
        * psi.integrate_t_times_psi (mu - a) (mu + a)
      + (-((4 / 3 - 1) ^ 3) * (3 / 2 * d.tau ^ 2 / sq
          + 9 / 2 * d.tau * mu ^ 2 / sq ^ 2 + 15 / 8 * mu ^ 4 / sq ^ 3))
        * psi.integrate_t2_times_psi (mu - a) (mu + a)
      + (-(-((4 / 3 - 1) ^ 3)) * (3 * d.tau * mu / sq ^ 2
          + 5 / 2 * mu ^ 3 / sq ^ 3))
        * psi.integrate_t3_times_psi (mu - a) (mu + a)
      + (-((4 / 3 - 1) ^ 3) * (3 / 4 * d.tau / sq ^ 2
          + 15 / 8 * mu ^ 2 / sq ^ 3))
        * psi.integrate_t4_times_psi (mu - a) (mu + a)
      + (-(-((4 / 3 - 1) ^ 3)) * (3 / 4 * mu / sq ^ 3))
        * psi.integrate_t5_times_psi (mu - a) (mu + a)
      + (-((4 / 3 - 1) ^ 3) * (1 / 8 * 1 / sq ^ 3))
        * psi.integrate_t6_times_psi (mu - a) (mu + a)

/-- The method expectation_t_times_psi; the Triweight override raises
NotImplementedError, modelled as None. -/
def expectation_t_times_psi : Kernel → Psi → Option ℚ
  | .base _ d mu _ a _, psi =>
      some (trapzF (fun t => t * d.pdf t * psi.evaluate t)
        (batchLinspace (mu - a) (mu + a) numSamples))
  | .uniform mu a dv _, psi =>
      some (dv * psi.integrate_t_times_psi (mu - a) (mu + a))
  | .gaussian _ mu sq _, psi => some (psi.integrate_t_times_psi_gaussian mu sq)
  | .sparsemax d mu sq a _, psi =>
      some ((-d.tau - mu ^ 2 / (2 * sq)) * psi.integrate_t_times_psi (mu - a) (mu + a)
        + mu / sq * psi.integrate_t2_times_psi (mu - a) (mu + a)
        + -1 / (2 * sq) * psi.integrate_t3_times_psi (mu - a) (mu + a))
  | .biweight d mu sq a _, psi =>
      some (((3 / 2 - 1) ^ 2 * (d.tau * (d.tau + mu ^ 2 / sq) + mu ^ 4 / (4 * sq ^ 2)))
          * psi.integrate_t_times_psi (mu - a) (mu + a)
        + (-((3 / 2 - 1) ^ 2) * (d.tau * 2 * mu / sq + mu ^ 3 / sq ^ 2))
          * psi.integrate_t2_times_psi (mu - a) (mu + a)
        + ((3 / 2 - 1) ^ 2 * (d.tau / sq + 3 * mu ^ 2 / (2 * sq ^ 2)))
          * psi.integrate_t3_times_psi (mu - a) (mu + a)
        + (-((3 / 2 - 1) ^ 2) * mu / sq ^ 2)
          * psi.integrate_t4_times_psi (mu - a) (mu + a)
        + (3 / 2 - 1) ^ 2 / (4 * sq ^ 2)
          * psi.integrate_t5_times_psi (mu - a) (mu + a))
  | .triweight _ _ _ _ _, _ => none

/-- The method expectation_t2_times_psi; the Triweight override raises
NotImplementedError, modelled as None. -/
def expectation_t2_times_psi : Kernel → Psi → Option ℚ
  | .base _ d mu _ a _, psi =>
      some (trapzF (fun t => t ^ 2 * d.pdf t * psi.evaluate t)
        (batchLinspace (mu - a) (mu + a) numSamples))
  | .uniform mu a dv _, psi =>
      some (dv * psi.integrate_t2_times_psi (mu - a) (mu + a))
  | .gaussian _ mu sq _, psi => some (psi.integrate_t2_times_psi_gaussian mu sq)
  | .sparsemax d mu sq a _, psi =>
      some ((-d.tau - mu ^ 2 / (2 * sq)) * psi.integrate_t2_times_psi (mu - a) (mu + a)
        + mu / sq * psi.integrate_t3_times_psi (mu - a) (mu + a)
        + -1 / (2 * sq) * psi.integrate_t4_times_psi (mu - a) (mu + a))
  | .biweight d mu sq a _, psi =>
      some (((3 / 2 - 1) ^ 2 * (d.tau * (d.tau + mu ^ 2 / sq) + mu ^ 4 / (4 * sq ^ 2)))
          * psi.integrate_t2_times_psi (mu - a) (mu + a)
        + (-((3 / 2 - 1) ^ 2) * (d.tau * 2 * mu / sq + mu ^ 3 / sq ^ 2))
          * psi.integrate_t3_times_psi (mu - a) (mu + a)
        + ((3 / 2 - 1) ^ 2 * (d.tau / sq + 3 * mu ^ 2 / (2 * sq ^ 2)))
          * psi.integrate_t4_times_psi (mu - a) (mu + a)
        + (-((3 / 2 - 1) ^ 2) * mu / sq ^ 2)
          * psi.integrate_t5_times_psi (mu - a) (mu + a)
        + (3 / 2 - 1) ^ 2 / (4 * sq ^ 2)
          * psi.integrate_t6_times_psi (mu - a) (mu + a))
  | .triweight _ _ _ _ _, _ => none

/-- The method _escort_normalizer with the floating point power operator
abstracted as fpow.  The generic body reads the alpha of the stored escort
(raising when the escort is None), computes the exponent
1 / (alpha_escort - 1) (a Python division that raises ZeroDivisionError
when alpha_escort is the finite float 1), and integrates
fpow((alpha - 1) * (-tau - t^2 / (2 sigma_sq)), exponent)
over [-a, a] on the 1000-point grid; the Uniform class inherits this body
but its None fields make the call raise; the family overrides are the
closed forms from the source. -/
def escortNormalizer (fpow : ℚ → ℚ → ℚ) : Kernel → Option ℚ
  | .base alpha d _ sq a es =>
      (match es with
        | .noEscort => none
        | .selfRef => some alpha
        | .child e => some (alphaOf e)).bind fun alphaE =>
        (invAlphaMinusOneChecked alphaE).map fun ex =>
          trapzF (fun t =>
              fpow ((alphaToQ alpha - 1) * (-d.tau - t ^ 2 / (2 * sq))) ex)
            (batchLinspace (-a) a numSamples)
  | .uniform _ _ _ _ => none
  | .gaussian _ _ _ _ => some 1
  | .sparsemax _ _ _ a _ => some (2 * a)
  | .biweight d _ sq a _ => some (-d.tau * a - a ^ 3 / (6 * sq))
  | .triweight d _ sq a _ =>
      some (1 / 9 * (2 * d.tau ^ 2 * a + 2 * d.tau / (3 * sq) * a ^ 3
        + 1 / (10 * sq ^ 2) * a ^ 5))

/-- The method attention: expectation_psi. -/
def attention (k : Kernel) (psi : Psi) : ℚ :=
  expectation_psi k psi

/-- The method attention_gradient of the generic class (no family overrides
it).  The Python body evaluates _escort_normalizer first, then the escort
expectations; any raised error propagates as None. -/
def attention_gradient (fpow : ℚ → ℚ → ℚ) (k : Kernel) (psi : Psi) :
    Option (ℚ × ℚ) :=
  match escortNormalizer fpow k with
  | none => none
  | some z =>
    match resolveEscort k with
    | none => none
    | some e =>
      match expectation_t_times_psi e psi with
      | none => none
      | some l1 =>
        match expectation_t2_times_psi e psi with
        | none => none
        | some l2 =>
          some (z * (l1 - expectation_t e * expectation_psi e psi),
                z * (l2 - expectation_t2 e * expectation_psi e psi))

/-- Selection of the degree-k integral primitive of psi. -/
def integrateT (psi : Psi) : ℕ → ℚ → ℚ → ℚ
  | 0 => psi.integrate_psi
  | 1 => psi.integrate_t_times_psi
  | 2 => psi.integrate_t2_times_psi
  | 3 => psi.integrate_t3_times_psi
  | 4 => psi.integrate_t4_times_psi
  | 5 => psi.integrate_t5_times_psi
  | 6 => psi.integrate_t6_times_psi
  | _ + 7 => fun _ _ => 0

/-- Coefficient-weighted sum of integral primitives of psi over [u, v],
with the primitive degree shifted up by s: coefficient number k multiplies
the degree k + s primitive. -/
def applyShifted (psi : Psi) (u v : ℚ) : List ℚ → ℕ → ℚ
  | [], _ => 0
  | c :: cs, s => c * integrateT psi s u v + applyShifted psi u v cs (s + 1)

/-- The sparsemax coefficient vector as a function of mu, sigma_sq, tau. -/
def sparsemaxCoeffs (tau mu sq : ℚ) : List ℚ :=
  [-tau - mu ^ 2 / (2 * sq), mu / sq, -1 / (2 * sq)]

/-- The biweight coefficient vector as a function of mu, sigma_sq, tau. -/
def biweightCoeffs (tau mu sq : ℚ) : List ℚ :=
  [(3 / 2 - 1) ^ 2 * (tau * (tau + mu ^ 2 / sq) + mu ^ 4 / (4 * sq ^ 2)),
   -((3 / 2 - 1) ^ 2) * (tau * 2 * mu / sq + mu ^ 3 / sq ^ 2),
   (3 / 2 - 1) ^ 2 * (tau / sq + 3 * mu ^ 2 / (2 * sq ^ 2)),
   -((3 / 2 - 1) ^ 2) * mu / sq ^ 2,
   (3 / 2 - 1) ^ 2 / (4 * sq ^ 2)]

/-- The escort normalizer value claimed by the specification sentence, read
literally: numeric trapezoidal integration over [-a, a] of the integrand
((alpha - 1) * (-tau - t^2 / (2 sigma_sq))) raised to the power
1 / (beta - 1) with beta = 2 - alpha. -/
def specStatedEscortNormalizer (fpow : ℚ → ℚ → ℚ) (alpha sq a tau : ℚ) : ℚ :=
  trapzF (fun t => fpow ((alpha - 1) * (-tau - t ^ 2 / (2 * sq)))
      (1 / (2 - alpha - 1)))
    (batchLinspace (-a) a numSamples)

/-- The escort normalizer formula with the exponent corrected: the power is
1 / (alpha_escort - 1) with alpha_escort = 1 / (2 - alpha), which equals
(2 - alpha) / (alpha - 1). -/
def specAmendedEscortNormalizer (fpow : ℚ → ℚ → ℚ) (alpha sq a tau : ℚ) : ℚ :=
  trapzF (fun t => fpow ((alpha - 1) * (-tau - t ^ 2 / (2 * sq)))
      ((2 - alpha) / (alpha - 1)))
    (batchLinspace (-a) a numSamples)

/-- First element of a list of rationals, 0 for the empty list. -/
def headD : List ℚ → ℚ
  | [] => 0
  | t :: _ => t

/-- Last element of a list of rationals, 0 for the empty list. -/
def lastD : List ℚ → ℚ
  | [] => 0
  | [t] => t
  | _ :: t2 :: rest => lastD (t2 :: rest)

/-- A concrete distribution-object state for witnesses. -/
def demoDist : DistObj :=
  { sigma_sq := 1, tau := -1, support_size := 1, variance := 1, pdf := fun _ => 0 }

/-- A concrete distribution-object environment for witnesses. -/
def demoEnv : DistEnv :=
  fun _ _ _ _ =>
    { sigma_sq := 1, tau := -1, support_size := 1, variance := 1, pdf := fun _ => 0 }

/-- A concrete power model for witnesses. -/
def demoFpow : ℚ → ℚ → ℚ :=
  fun b e => b + e

/-- A power model that returns the exponent, used to separate two formulas
that apply the power operator to different exponents. -/
def exponentFpow : ℚ → ℚ → ℚ :=
  fun _ e => e

/-- The constant-one basis of the concrete scenario: psi evaluates to 1
everywhere and integrate_psi(u, v) = v - u. -/
def onePsi : Psi where
  evaluate := fun _ => 1
  integrate_psi := fun u v => v - u
  integrate_t_times_psi := fun u v => (v ^ 2 - u ^ 2) / 2
  integrate_t2_times_psi := fun u v => (v ^ 3 - u ^ 3) / 3
  integrate_t3_times_psi := fun u v => (v ^ 4 - u ^ 4) / 4
  integrate_t4_times_psi := fun u v => (v ^ 5 - u ^ 5) / 5
  integrate_t5_times_psi := fun u v => (v ^ 6 - u ^ 6) / 6
  integrate_t6_times_psi := fun u v => (v ^ 7 - u ^ 7) / 7
  integrate_psi_gaussian := fun _ _ => 1
  integrate_t_times_psi_gaussian := fun mu _ => mu
  integrate_t2_times_psi_gaussian := fun mu sq => sq + mu ^ 2

/-- Trapezoidal integration of a constant telescopes to the constant times
the distance between the last and the first grid point. -/
theorem trapz_const (c : ℚ) (ts : List ℚ) :
    trapzF (fun _ => c) ts = c * (lastD ts - headD ts) := by
  induction ts with
  | nil => simp [trapzF, trapz, lastD, headD]
  | cons t rest ih =>
    cases rest with
    | nil => simp [trapzF, trapz, lastD, headD]
    | cons t2 rest2 =>
      have h : trapzF (fun _ => c) (t :: t2 :: rest2)
          = (t2 - t) * (c + c) / 2 + trapzF (fun _ => c) (t2 :: rest2) := rfl
      rw [h, ih]
      have h2 : headD (t2 :: rest2) = t2 := rfl
      have h3 : lastD (t :: t2 :: rest2) = lastD (t2 :: rest2) := rfl
      have h4 : headD (t :: t2 :: rest2) = t := rfl
      rw [h2, h3, h4]
      ring

/-- The last element of a list with an element appended. -/
theorem lastD_concat (x : ℚ) (xs : List ℚ) : lastD (xs ++ [x]) = x := by
  induction xs with
  | nil => rfl
  | cons y ys ih =>
    cases ys with
    | nil => rfl
    | cons z zs => exact ih

/-- The last grid point of a mapped range. -/
theorem lastD_map_range (f : ℕ → ℚ) (n : ℕ) :
    lastD ((List.range (n + 1)).map f) = f n := by
  rw [List.range_succ, List.map_append]
  exact lastD_concat (f n) _

/-- The first grid point of a mapped range. -/
theorem headD_map_range (f : ℕ → ℚ) (n : ℕ) :
    headD ((List.range (n + 1)).map f) = f 0 := by
  rw [List.range_succ_eq_map]
  rfl

/-- Trapezoidal integration of a constant over the 1000-point grid from s
to e gives c * (e - s). -/
theorem trapzF_const_linspace (c s e : ℚ) :
    trapzF (fun _ => c) (batchLinspace s e numSamples) = c * (e - s) := by
  rw [batchLinspace, numSamples, trapz_const]
  have h1 : (1000 : ℕ) = 999 + 1 := by norm_num
  rw [h1, lastD_map_range, headD_map_range]
  norm_num

/-- Claim C3: for every Triweight kernel and every basis object psi, both
expectation_t_times_psi and expectation_t2_times_psi raise
NotImplementedError immediately (modelled as None), with no numeric
fallback and no numeric result. -/
theorem c3_triweight_unimplemented (d : DistObj) (mu sq a : ℚ) (es : Slot)
    (psi : Psi) :
    expectation_t_times_psi (Kernel.triweight d mu sq a es) psi = none
    ∧ expectation_t2_times_psi (Kernel.triweight d mu sq a es) psi = none :=
  ⟨rfl, rfl⟩

/-- Claim C5: every set_parameters call on a Gaussian kernel produces a
state whose escort field refers to the kernel object itself (a self
reference, so dereferencing the escort yields the very same kernel). -/
theorem c5_gaussian_self_escort (env : DistEnv) (d0 : DistObj) (mu0 s0 : ℚ)
    (es0 : Slot) (args : SPArgs) :
    setParameters env (Kernel.gaussian d0 mu0 s0 es0) args
      = some (gaussianSetParameters env args.mu args.sigma_sq)
    ∧ slotOf (gaussianSetParameters env args.mu args.sigma_sq) = Slot.selfRef
    ∧ resolveEscort (gaussianSetParameters env args.mu args.sigma_sq)
        = some (gaussianSetParameters env args.mu args.sigma_sq) :=
  ⟨rfl, rfl, rfl⟩

/-- Claim C6: the escort-alpha computation special-cases alpha = 2 to the
infinite limiting value, the guarded Python division never divides by zero
for any alpha, and the escort kernel built for an alpha = 2 kernel carries
the infinite alpha. -/
theorem c6_alpha_two_special_case :
    escortAlpha (AlphaVal.fin 2) = AlphaVal.inf
    ∧ (∀ a, escortAlphaChecked a = some (escortAlpha a))
    ∧ (∀ (env : DistEnv) (mu support_size : ℚ),
        alphaOf (baseEscortKernel env (AlphaVal.fin 2) mu support_size)
          = AlphaVal.inf) := by
  refine ⟨by simp [escortAlpha], ?_, fun env mu s => by simp [baseEscortKernel,
    baseFresh, alphaOf, escortAlpha]⟩
  intro a
  cases a with
  | inf => rfl
  | fin q =>
    by_cases h : q = 2
    · simp [escortAlphaChecked, escortAlpha, h]
    · have h2 : (2 : ℚ) - q ≠ 0 := sub_ne_zero_of_ne (Ne.symm h)
      simp [escortAlphaChecked, escortAlpha, qdivChecked, h, h2]

/-- Claim C8: the Uniform kernel with mu = 0 and support_size = 2 (so a = 1
and density 1/2), applied to the constant basis whose integrate_psi is
v - u, has expectation_psi exactly 1. -/
theorem c8_uniform_concrete_scenario :
    expectation_psi (uniformFresh 0 2) onePsi = 1 := by
  norm_num [uniformFresh, uniformSetParameters, expectation_psi, onePsi]

/-- Claim C10: the Sparsemax and Biweight moment methods all apply one and
the same coefficient vector (a function of mu, sigma_sq, tau) to the
integral primitives of psi over [mu - a, mu + a], shifted up by one degree
for expectation_t_times_psi and by two degrees for
expectation_t2_times_psi. -/
theorem c10_shifted_coefficient_vectors (d : DistObj) (mu sq a : ℚ)
    (es : Slot) (psi : Psi) :
    expectation_psi (Kernel.sparsemax d mu sq a es) psi
      = applyShifted psi (mu - a) (mu + a) (sparsemaxCoeffs d.tau mu sq) 0
    ∧ expectation_t_times_psi (Kernel.sparsemax d mu sq a es) psi
      = some (applyShifted psi (mu - a) (mu + a) (sparsemaxCoeffs d.tau mu sq) 1)
    ∧ expectation_t2_times_psi (Kernel.sparsemax d mu sq a es) psi
      = some (applyShifted psi (mu - a) (mu + a) (sparsemaxCoeffs d.tau mu sq) 2)
    ∧ expectation_psi (Kernel.biweight d mu sq a es) psi
      = applyShifted psi (mu - a) (mu + a) (biweightCoeffs d.tau mu sq) 0
    ∧ expectation_t_times_psi (Kernel.biweight d mu sq a es) psi
      = some (applyShifted psi (mu - a) (mu + a) (biweightCoeffs d.tau mu sq) 1)
    ∧ expectation_t2_times_psi (Kernel.biweight d mu sq a es) psi
      = some (applyShifted psi (mu - a) (mu + a) (biweightCoeffs d.tau mu sq) 2) := by
  refine ⟨?_, ?_, ?_, ?_, ?_, ?_⟩ <;>
    simp only [expectation_psi, expectation_t_times_psi, expectation_t2_times_psi,
      applyShifted, sparsemaxCoeffs, biweightCoeffs, integrateT,
      Nat.reduceAdd, Option.some.injEq] <;>
    ring

/-- Claim C9 counterexample: on the Uniform kernel with mu = 0 and support
2, expectation_t2 returns the numeric value 1/3, yet the variance method
raises (None) because the Uniform class has no distribution object, so
expectation_t2 is not variance() + mu^2 as the claim states. -/
theorem c9_counterexample :
    expectation_t2 (uniformFresh 0 2) = 1 / 3
    ∧ ¬ ∃ v, varianceM (uniformFresh 0 2) = some v
        ∧ expectation_t2 (uniformFresh 0 2) = v + muOf (uniformFresh 0 2) ^ 2 := by
  constructor
  · norm_num [uniformFresh, uniformSetParameters, expectation_t2]
  · rintro ⟨v, hv, _⟩
    simp [uniformFresh, uniformSetParameters, varianceM] at hv

/-- Claim C9 amended: expectation_t returns mu for every family; for every
family except Uniform, expectation_t2 returns variance() + mu^2 with the
variance delegated to the distribution object; the Uniform family has no
distribution object (its variance method raises) and computes
expectation_t2 directly as (1/3) a^2 + mu^2. -/
theorem c9_amended (k : Kernel) :
    expectation_t k = muOf k
    ∧ (famTag k ≠ Fam.uniformF →
        ∃ v, varianceM k = some v ∧ expectation_t2 k = v + muOf k ^ 2)
    ∧ (famTag k = Fam.uniformF →
        varianceM k = none
        ∧ expectation_t2 k = 1 / 3 * halfWidth k ^ 2 + muOf k ^ 2) := by
  refine ⟨rfl, ?_, ?_⟩
  · intro h
    cases k with
    | uniform mu a dv es => exact absurd rfl h
    | base alpha d mu sq a es => exact ⟨d.variance, rfl, rfl⟩
    | gaussian d mu sq es => exact ⟨d.variance, rfl, rfl⟩
    | sparsemax d mu sq a es => exact ⟨d.variance, rfl, rfl⟩
    | biweight d mu sq a es => exact ⟨d.variance, rfl, rfl⟩
    | triweight d mu sq a es => exact ⟨d.variance, rfl, rfl⟩
  · intro h
    cases k with
    | uniform mu a dv es => exact ⟨rfl, rfl⟩
    | base alpha d mu sq a es => exact Fam.noConfusion h
    | gaussian d mu sq es => exact Fam.noConfusion h
    | sparsemax d mu sq a es => exact Fam.noConfusion h
    | biweight d mu sq a es => exact Fam.noConfusion h
    | triweight d mu sq a es => exact Fam.noConfusion h

/-- Claim C9 witness: the amended statement evaluated on a concrete
Gaussian kernel and on a concrete Uniform kernel. -/
theorem c9_witness :
    (∃ v, varianceM (Kernel.gaussian demoDist 0 1 Slot.selfRef) = some v
      ∧ expectation_t2 (Kernel.gaussian demoDist 0 1 Slot.selfRef)
          = v + muOf (Kernel.gaussian demoDist 0 1 Slot.selfRef) ^ 2)
    ∧ varianceM (uniformFresh 0 2) = none
    ∧ expectation_t2 (uniformFresh 0 2)
        = 1 / 3 * halfWidth (uniformFresh 0 2) ^ 2 + muOf (uniformFresh 0 2) ^ 2 :=
  ⟨(c9_amended (Kernel.gaussian demoDist 0 1 Slot.selfRef)).2.1
      (fun h => Fam.noConfusion h),
    (c9_amended (uniformFresh 0 2)).2.2 rfl⟩

/-- Claim C7 counterexample: the Uniform set_parameters does not re-derive
the escort field; a stale escort value survives the call, so two Uniform
kernels that differ only in that field are left in different states by the
same set_parameters call. -/
theorem c7_counterexample :
    (setParameters demoEnv (Kernel.uniform 0 1 (1 / 2) Slot.selfRef)
        ⟨5, none, some 4, true⟩).map slotOf = some Slot.selfRef
    ∧ setParameters demoEnv (Kernel.uniform 0 1 (1 / 2) Slot.selfRef)
        ⟨5, none, some 4, true⟩
      ≠ setParameters demoEnv (Kernel.uniform 0 1 (1 / 2) Slot.noEscort)
        ⟨5, none, some 4, true⟩ := by
  constructor
  · rfl
  · intro hcontra
    simp [setParameters, uniformSetParameters] at hcontra

/-- Claim C7 amended: set_parameters is idempotent for every family, and
for every family except Uniform the resulting state is a function of the
family, its alpha, and the arguments alone (sigma_sq, the half width a and
the escort are all fully re-derived); the Uniform override re-derives mu,
a and the density but leaves its escort field untouched. -/
theorem c7_amended (env : DistEnv) (args : SPArgs) (k k1 : Kernel)
    (hset : setParameters env k args = some k1) :
    setParameters env k1 args = some k1
    ∧ ∀ k2, famTag k2 = famTag k → famTag k ≠ Fam.uniformF →
        setParameters env k2 args = setParameters env k args := by
  cases k with
  | base alpha d mu sq a es =>
    simp only [setParameters, Option.some.injEq] at hset
    subst hset
    refine ⟨rfl, ?_⟩
    intro k2 h hne
    cases k2 <;> simp_all [famTag, setParameters]
  | uniform mu a dv es =>
    cases hs : args.support_size with
    | none =>
      simp only [setParameters, hs, Option.map_none'] at hset
      exact Option.noConfusion hset
    | some s =>
      simp only [setParameters, hs, Option.map_some', Option.some.injEq] at hset
      subst hset
      refine ⟨?_, ?_⟩
      · simp [setParameters, hs, uniformSetParameters, slotOf]
      · intro k2 h hne
        exact absurd rfl hne
  | gaussian d mu sq es =>
    simp only [setParameters, Option.some.injEq] at hset
    subst hset
    refine ⟨rfl, ?_⟩
    intro k2 h hne
    cases k2 <;> simp_all [famTag, setParameters]
  | sparsemax d mu sq a es =>
    simp only [setParameters, Option.some.injEq] at hset
    subst hset
    refine ⟨rfl, ?_⟩
    intro k2 h hne
    cases k2 <;> simp_all [famTag, setParameters]
  | biweight d mu sq a es =>
    simp only [setParameters, Option.some.injEq] at hset
    subst hset
    refine ⟨rfl, ?_⟩
    intro k2 h hne
    cases k2 <;> simp_all [famTag, setParameters]
  | triweight d mu sq a es =>
    simp only [setParameters, Option.some.injEq] at hset
    subst hset
    refine ⟨rfl, ?_⟩
    intro k2 h hne
    cases k2 <;> simp_all [famTag, setParameters]

/-- Claim C7 witness: the amended statement evaluated on concrete
sparsemax kernels with concrete arguments. -/
theorem c7_witness :
    setParameters demoEnv (sparsemaxSetParameters demoEnv 0 (some 1) (some 2) true)
        ⟨0, some 1, some 2, true⟩
      = some (sparsemaxSetParameters demoEnv 0 (some 1) (some 2) true)
    ∧ ∀ k2, famTag k2 = famTag (Kernel.sparsemax demoDist 9 9 9 Slot.selfRef) →
        famTag (Kernel.sparsemax demoDist 9 9 9 Slot.selfRef) ≠ Fam.uniformF →
        setParameters demoEnv k2 ⟨0, some 1, some 2, true⟩
          = setParameters demoEnv (Kernel.sparsemax demoDist 9 9 9 Slot.selfRef)
              ⟨0, some 1, some 2, true⟩ :=
  c7_amended demoEnv ⟨0, some 1, some 2, true⟩
    (Kernel.sparsemax demoDist 9 9 9 Slot.selfRef)
    (sparsemaxSetParameters demoEnv 0 (some 1) (some 2) true) rfl

/-- Claim C4: any set_parameters call, on a kernel whose escort field obeys
the Uniform-class invariant, produces a state whose owned escort chain has
depth at most one, and any owned escort it builds has an empty escort
field of its own (it is built with use_escort = false). -/
theorem c4_escort_depth_one (env : DistEnv) (k : Kernel) (args : SPArgs)
    (k1 : Kernel) (hset : setParameters env k args = some k1)
    (hu : famTag k = Fam.uniformF → slotOf k = Slot.noEscort) :
    kernelDepth k1 ≤ 1
    ∧ ∀ e, slotOf k1 = Slot.child e → slotOf e = Slot.noEscort := by
  cases k with
  | base alpha d mu sq a es =>
    simp only [setParameters, Option.some.injEq] at hset
    subst hset
    cases hue : args.use_escort <;>
      simp [baseSetParameters, baseEscortKernel, baseFresh, kernelDepth,
        slotDepth, slotOf, hue]
  | uniform mu a dv es =>
    have hes : es = Slot.noEscort := hu rfl
    subst hes
    cases hs : args.support_size with
    | none =>
      simp only [setParameters, hs, Option.map_none'] at hset
      exact Option.noConfusion hset
    | some s =>
      simp only [setParameters, hs, Option.map_some', Option.some.injEq] at hset
      subst hset
      simp [uniformSetParameters, kernelDepth, slotDepth, slotOf]
  | gaussian d mu sq es =>
    simp only [setParameters, Option.some.injEq] at hset
    subst hset
    simp [gaussianSetParameters, kernelDepth, slotDepth, slotOf]
  | sparsemax d mu sq a es =>
    simp only [setParameters, Option.some.injEq] at hset
    subst hset
    cases hue : args.use_escort <;>
      simp [sparsemaxSetParameters, uniformFresh, uniformSetParameters,
        kernelDepth, slotDepth, slotOf, hue]
  | biweight d mu sq a es =>
    simp only [setParameters, Option.some.injEq] at hset
    subst hset
    cases hue : args.use_escort <;>
      simp [biweightSetParameters, sparsemaxSetParameters, kernelDepth,
        slotDepth, slotOf, hue]
  | triweight d mu sq a es =>
    simp only [setParameters, Option.some.injEq] at hset
    subst hset
    cases hue : args.use_escort <;>
      simp [triweightSetParameters, biweightSetParameters, kernelDepth,
        slotDepth, slotOf, hue]

/-- Claim C4 witness: the depth bound evaluated on a concrete triweight
set_parameters call with use_escort = true. -/
theorem c4_witness :
    kernelDepth (triweightSetParameters demoEnv 0 (some 1) (some 2) true) ≤ 1
    ∧ ∀ e, slotOf (triweightSetParameters demoEnv 0 (some 1) (some 2) true)
        = Slot.child e → slotOf e = Slot.noEscort :=
  c4_escort_depth_one demoEnv (Kernel.triweight demoDist 0 1 1 Slot.noEscort)
    ⟨0, some 1, some 2, true⟩ _ rfl (fun h => Fam.noConfusion h)

/-- Unfolding of the generic _escort_normalizer body on a kernel whose
escort slot holds an owned child kernel. -/
theorem escortNormalizer_base_child (fpow : ℚ → ℚ → ℚ) (alpha : AlphaVal)
    (d : DistObj) (mu sq a : ℚ) (e : Kernel) :
    escortNormalizer fpow (Kernel.base alpha d mu sq a (Slot.child e))
      = (invAlphaMinusOneChecked (alphaOf e)).map fun ex =>
          trapzF (fun t =>
              fpow ((alphaToQ alpha - 1) * (-d.tau - t ^ 2 / (2 * sq))) ex)
            (batchLinspace (-a) a numSamples) := rfl

/-- The exponent division in the generic _escort_normalizer succeeds
exactly when the kernel alpha is not the finite value 1: the escort alpha
then differs from 1, so the divisor alpha_escort - 1 is nonzero. -/
theorem invAlphaMinusOneChecked_escortAlpha (a : AlphaVal)
    (h : a ≠ AlphaVal.fin 1) :
    ∃ ex, invAlphaMinusOneChecked (escortAlpha a) = some ex := by
  cases a with
  | inf =>
    exact ⟨-1, by norm_num [escortAlpha, invAlphaMinusOneChecked, qdivChecked]⟩
  | fin q =>
    have hq1 : q ≠ 1 := fun hh => h (by rw [hh])
    by_cases hq2 : q = 2
    · subst hq2
      exact ⟨0, by simp [escortAlpha, invAlphaMinusOneChecked]⟩
    · have h2q : (2 : ℚ) - q ≠ 0 := sub_ne_zero_of_ne (Ne.symm hq2)
      have hstep : (1 : ℚ) / (2 - q) - 1 = (q - 1) / (2 - q) := by
        field_simp
        ring
      have hne0 : (1 : ℚ) / (2 - q) - 1 ≠ 0 := by
        rw [hstep]
        exact div_ne_zero (sub_ne_zero_of_ne hq1) h2q
      refine ⟨1 / (1 / (2 - q) - 1), ?_⟩
      simp only [escortAlpha, if_neg hq2, invAlphaMinusOneChecked, qdivChecked,
        if_neg hne0]

/-- Claim C1 counterexample: a generic-path kernel with alpha = 1, whose
parameters are set with use_escort = true, gets escort alpha
1 / (2 - 1) = 1, so _escort_normalizer raises ZeroDivisionError computing
1 / (alpha_escort - 1) and attention_gradient propagates the error instead
of returning the claimed pair. -/
theorem c1_counterexample :
    escortNormalizer demoFpow
        (baseSetParameters demoEnv (AlphaVal.fin 1) 0 none (some 1) true) = none
    ∧ attention_gradient demoFpow
        (baseSetParameters demoEnv (AlphaVal.fin 1) 0 none (some 1) true) onePsi
      = none := by
  have hexp : invAlphaMinusOneChecked (escortAlpha (AlphaVal.fin 1)) = none := by
    norm_num [escortAlpha, invAlphaMinusOneChecked, qdivChecked]
  have hn : escortNormalizer demoFpow
      (baseSetParameters demoEnv (AlphaVal.fin 1) 0 none (some 1) true)
      = (invAlphaMinusOneChecked (escortAlpha (AlphaVal.fin 1))).map fun ex =>
          trapzF (fun t =>
              demoFpow ((alphaToQ (AlphaVal.fin 1) - 1)
                * (-demoDist.tau - t ^ 2 / (2 * demoDist.sigma_sq))) ex)
            (batchLinspace (-(1 / 2)) (1 / 2) numSamples) := rfl
  have h1 : escortNormalizer demoFpow
      (baseSetParameters demoEnv (AlphaVal.fin 1) 0 none (some 1) true) = none := by
    rw [hn, hexp]
    rfl
  refine ⟨h1, ?_⟩
  simp only [attention_gradient, h1]

/-- Claim C1 amended: for every kernel whose parameters have been set with
use_escort = true (every family except Uniform, whose set_parameters lacks
the flag) and which is not a generic-path kernel with alpha = 1 (where the
escort alpha is 1 and _escort_normalizer raises ZeroDivisionError), the
kernel has an escort e and a normalizer Z, the escort expectations all
succeed, and attention_gradient returns exactly the pair
(Z * (E_e of t psi - E_e of t * E_e of psi),
 Z * (E_e of t2 psi - E_e of t2 * E_e of psi)),
with the one shared generic body and no family-specific override. -/
theorem c1_attention_gradient_generic (env : DistEnv) (fpow : ℚ → ℚ → ℚ)
    (k0 k1 : Kernel) (args : SPArgs) (psi : Psi)
    (hset : setParameters env k0 args = some k1)
    (hue : args.use_escort = true)
    (hnu : famTag k0 ≠ Fam.uniformF)
    (hb : famTag k0 ≠ Fam.baseF (AlphaVal.fin 1)) :
    ∃ e z l1 l2,
      resolveEscort k1 = some e
      ∧ escortNormalizer fpow k1 = some z
      ∧ expectation_t_times_psi e psi = some l1
      ∧ expectation_t2_times_psi e psi = some l2
      ∧ attention_gradient fpow k1 psi
          = some (z * (l1 - expectation_t e * expectation_psi e psi),
                  z * (l2 - expectation_t2 e * expectation_psi e psi)) := by
  cases k0 with
  | uniform mu a dv es => exact absurd rfl hnu
  | base alpha d mu sq a es =>
    have halpha : alpha ≠ AlphaVal.fin 1 := fun hh => hb (by rw [hh]; rfl)
    obtain ⟨ex, hex⟩ := invAlphaMinusOneChecked_escortAlpha alpha halpha
    simp only [setParameters, Option.some.injEq] at hset
    subst hset
    rw [hue]
    have h0 : escortNormalizer fpow
        (baseSetParameters env alpha args.mu args.sigma_sq args.support_size true)
        = (invAlphaMinusOneChecked (escortAlpha alpha)).map fun ex2 =>
            trapzF (fun t =>
                fpow ((alphaToQ alpha - 1)
                  * (-(env (Fam.baseF alpha) args.mu args.sigma_sq args.support_size).tau
                    - t ^ 2 / (2 * (env (Fam.baseF alpha) args.mu args.sigma_sq args.support_size).sigma_sq))) ex2)
              (batchLinspace
                (-((env (Fam.baseF alpha) args.mu args.sigma_sq args.support_size).support_size / 2))
                ((env (Fam.baseF alpha) args.mu args.sigma_sq args.support_size).support_size / 2)
                numSamples) := rfl
    have hesc : escortNormalizer fpow
        (baseSetParameters env alpha args.mu args.sigma_sq args.support_size true)
        = some (trapzF (fun t =>
              fpow ((alphaToQ alpha - 1)
                * (-(env (Fam.baseF alpha) args.mu args.sigma_sq args.support_size).tau
                  - t ^ 2 / (2 * (env (Fam.baseF alpha) args.mu args.sigma_sq args.support_size).sigma_sq))) ex)
            (batchLinspace
              (-((env (Fam.baseF alpha) args.mu args.sigma_sq args.support_size).support_size / 2))
              ((env (Fam.baseF alpha) args.mu args.sigma_sq args.support_size).support_size / 2)
              numSamples)) := by
      rw [h0, hex]
      rfl
    refine ⟨_, _, _, _, rfl, hesc, rfl, rfl, ?_⟩
    simp only [attention_gradient, hesc]
    rfl
  | gaussian d mu sq es =>
    simp only [setParameters, Option.some.injEq] at hset
    subst hset
    exact ⟨_, _, _, _, rfl, rfl, rfl, rfl, rfl⟩
  | sparsemax d mu sq a es =>
    simp only [setParameters, Option.some.injEq] at hset
    subst hset
    rw [hue]
    exact ⟨_, _, _, _, rfl, rfl, rfl, rfl, rfl⟩
  | biweight d mu sq a es =>
    simp only [setParameters, Option.some.injEq] at hset
    subst hset
    rw [hue]
    exact ⟨_, _, _, _, rfl, rfl, rfl, rfl, rfl⟩
  | triweight d mu sq a es =>
    simp only [setParameters, Option.some.injEq] at hset
    subst hset
    rw [hue]
    exact ⟨_, _, _, _, rfl, rfl, rfl, rfl, rfl⟩

/-- Claim C1 witness: the amended gradient identity evaluated on a
concrete Gaussian kernel set through the common interface with
use_escort = true. -/
theorem c1_witness :
    ∃ e z l1 l2,
      resolveEscort (gaussianSetParameters demoEnv 0 (some 1)) = some e
      ∧ escortNormalizer demoFpow (gaussianSetParameters demoEnv 0 (some 1))
          = some z
      ∧ expectation_t_times_psi e onePsi = some l1
      ∧ expectation_t2_times_psi e onePsi = some l2
      ∧ attention_gradient demoFpow (gaussianSetParameters demoEnv 0 (some 1))
            onePsi
          = some (z * (l1 - expectation_t e * expectation_psi e onePsi),
                  z * (l2 - expectation_t2 e * expectation_psi e onePsi)) :=
  c1_attention_gradient_generic demoEnv demoFpow
    (Kernel.gaussian demoDist 3 3 Slot.noEscort)
    (gaussianSetParameters demoEnv 0 (some 1))
    ⟨0, some 1, none, true⟩ onePsi rfl rfl (fun h => Fam.noConfusion h)
    (fun h => Fam.noConfusion h)

/-- Claim C2 counterexample: on a generic kernel with alpha = 3/2 and the
power model that returns its exponent, the value computed by
_escort_normalizer differs from the value the claim states, because the
code raises the integrand to the power 1 / (alpha_escort - 1) = 1 while
the stated formula raises it to 1 / (beta - 1) = -2 with beta = 2 - alpha. -/
theorem c2_counterexample :
    escortNormalizer exponentFpow
        (baseSetParameters demoEnv (AlphaVal.fin (3 / 2)) 0 none (some 1) true)
      ≠ some (specStatedEscortNormalizer exponentFpow (3 / 2) demoDist.sigma_sq
          (demoDist.support_size / 2) demoDist.tau) := by
  have hexp : invAlphaMinusOneChecked (escortAlpha (AlphaVal.fin (3 / 2)))
      = some 1 := by
    norm_num [escortAlpha, invAlphaMinusOneChecked, qdivChecked]
  have h1 : escortNormalizer exponentFpow
      (baseSetParameters demoEnv (AlphaVal.fin (3 / 2)) 0 none (some 1) true)
      = (invAlphaMinusOneChecked (escortAlpha (AlphaVal.fin (3 / 2)))).map fun ex =>
          trapzF (fun _ => ex) (batchLinspace (-(1 / 2)) (1 / 2) numSamples) := rfl
  have h2 : escortNormalizer exponentFpow
      (baseSetParameters demoEnv (AlphaVal.fin (3 / 2)) 0 none (some 1) true)
      = some (1 * ((1 : ℚ) / 2 - -(1 / 2))) := by
    rw [h1, hexp]
    show some (trapzF (fun _ => (1 : ℚ)) (batchLinspace (-(1 / 2)) (1 / 2) numSamples)) = _
    rw [trapzF_const_linspace]
  have h3 : specStatedEscortNormalizer exponentFpow (3 / 2) demoDist.sigma_sq
      (demoDist.support_size / 2) demoDist.tau
      = (1 : ℚ) / (2 - 3 / 2 - 1) * ((1 : ℚ) / 2 - -(1 / 2)) := by
    show trapzF (fun _ => (1 : ℚ) / (2 - 3 / 2 - 1))
        (batchLinspace (-(1 / 2)) (1 / 2) numSamples) = _
    rw [trapzF_const_linspace]
  rw [h2, h3]
  intro hcontra
  simp only [Option.some.injEq] at hcontra
  norm_num at hcontra

/-- Claim C2 amended: for a generic-path kernel with finite alpha not equal
to 1 or 2 and parameters set with an escort, _escort_normalizer returns
the 1000-point trapezoidal integral over [-a, a] of the integrand
((alpha - 1) * (-tau - t^2 / (2 sigma_sq))) raised to the power
1 / (alpha_escort - 1) = (2 - alpha) / (alpha - 1), where
alpha_escort = 1 / (2 - alpha) is the alpha of the escort kernel; the
exponent is not 1 / (beta - 1) with beta = 2 - alpha as the specification
sentence states. -/
theorem c2_amended (env : DistEnv) (fpow : ℚ → ℚ → ℚ) (q mu : ℚ)
    (sigma_sq support_size : Option ℚ) (h1 : q ≠ 1) (h2 : q ≠ 2) :
    escortNormalizer fpow
        (baseSetParameters env (AlphaVal.fin q) mu sigma_sq support_size true)
      = some (specAmendedEscortNormalizer fpow q
          (env (Fam.baseF (AlphaVal.fin q)) mu sigma_sq support_size).sigma_sq
          ((env (Fam.baseF (AlphaVal.fin q)) mu sigma_sq support_size).support_size / 2)
          (env (Fam.baseF (AlphaVal.fin q)) mu sigma_sq support_size).tau) := by
  have hne : (2 : ℚ) - q ≠ 0 := sub_ne_zero_of_ne (Ne.symm h2)
  have step : (1 : ℚ) / (2 - q) - 1 = (q - 1) / (2 - q) := by
    field_simp
    ring
  have hne0 : (1 : ℚ) / (2 - q) - 1 ≠ 0 := by
    rw [step]
    exact div_ne_zero (sub_ne_zero_of_ne h1) hne
  have key : invAlphaMinusOneChecked (escortAlpha (AlphaVal.fin q))
      = some ((2 - q) / (q - 1)) := by
    simp only [escortAlpha, if_neg h2, invAlphaMinusOneChecked, qdivChecked,
      if_neg hne0]
    rw [step, one_div_div]
  have hL : escortNormalizer fpow
      (baseSetParameters env (AlphaVal.fin q) mu sigma_sq support_size true)
      = (invAlphaMinusOneChecked (escortAlpha (AlphaVal.fin q))).map fun ex =>
          trapzF (fun t => fpow ((q - 1)
            * (-(env (Fam.baseF (AlphaVal.fin q)) mu sigma_sq support_size).tau
              - t ^ 2 / (2 * (env (Fam.baseF (AlphaVal.fin q)) mu sigma_sq support_size).sigma_sq))) ex)
            (batchLinspace
              (-((env (Fam.baseF (AlphaVal.fin q)) mu sigma_sq support_size).support_size / 2))
              ((env (Fam.baseF (AlphaVal.fin q)) mu sigma_sq support_size).support_size / 2)
              numSamples) := rfl
  rw [hL, key]
  rfl

/-- Claim C2 witness: the amended normalizer identity evaluated at the
concrete alpha 3/2 with a concrete environment and power model. -/
theorem c2_witness :
    escortNormalizer demoFpow
        (baseSetParameters demoEnv (AlphaVal.fin (3 / 2)) 0 none (some 1) true)
      = some (specAmendedEscortNormalizer demoFpow (3 / 2)
          (demoEnv (Fam.baseF (AlphaVal.fin (3 / 2))) 0 none (some 1)).sigma_sq
          ((demoEnv (Fam.baseF (AlphaVal.fin (3 / 2))) 0 none (some 1)).support_size / 2)
          (demoEnv (Fam.baseF (AlphaVal.fin (3 / 2))) 0 none (some 1)).tau) :=
  c2_amended demoEnv demoFpow (3 / 2) 0 none (some 1) (by norm_num) (by norm_num)

end EntmaxKernels
